import Mathlib

/-!
Verification development for `diagram.py`, a one-file script that draws a
feasible-region diagram with matplotlib and saves it as
`polygon_diagram.png`.

The script is embedded as a list of drawing commands (`Cmd`), one per
pyplot call, in source order.  Python floating-point arithmetic is
modelled exactly: a binary64 value is represented by the rational number
it denotes, a decimal literal denotes the nearest binary64 (`pyLit`), and
each arithmetic operation rounds its exact rational result to the nearest
binary64, ties to even (`fadd`, `fsub`, `fmul`).  Python's `str` on a
float (the shortest round-tripping decimal) is modelled by `pyFloatStr`.

Rational arithmetic inside the model is written with `mkRat`-based
operations (`qadd`, `qsub`, `qmul`, `qabs`, `qfloor`) so that every
computation reduces by `decide`; the bridging lemmas `qadd_eq_add` … show
they agree with the standard operations on `ℚ`.
-/

namespace Diagram

/-! ### Exact rational arithmetic, in a form the kernel evaluates -/

/-- Addition on `ℚ` via `mkRat`; agrees with `+` (`qadd_eq_add`). -/
def qadd (a b : ℚ) : ℚ := mkRat (a.num * b.den + b.num * a.den) (a.den * b.den)

/-- Subtraction on `ℚ` via `mkRat`; agrees with `-` (`qsub_eq_sub`). -/
def qsub (a b : ℚ) : ℚ := mkRat (a.num * b.den - b.num * a.den) (a.den * b.den)

/-- Multiplication on `ℚ` via `mkRat`; agrees with `*` (`qmul_eq_mul`). -/
def qmul (a b : ℚ) : ℚ := mkRat (a.num * b.num) (a.den * b.den)

/-- Absolute value on `ℚ`; agrees with `|·|` (`qabs_eq_abs`). -/
def qabs (a : ℚ) : ℚ := if a.num < 0 then -a else a

/-- Floor of a rational; agrees with `⌊·⌋` (`qfloor_eq_floor`). -/
def qfloor (a : ℚ) : ℤ := a.num / (a.den : ℤ)

/-- The rational `2 ^ e` for an integer exponent (`pow2_eq_zpow`). -/
def pow2 (e : ℤ) : ℚ := if 0 ≤ e then mkRat (2 ^ e.toNat) 1 else mkRat 1 (2 ^ (-e).toNat)

/-- The rational `10 ^ e` for an integer exponent (`pow10_eq_zpow`). -/
def pow10 (e : ℤ) : ℚ := if 0 ≤ e then mkRat (10 ^ e.toNat) 1 else mkRat 1 (10 ^ (-e).toNat)

/-- Number of base-10 digits of a natural number (0 for 0), with fuel;
the fuel admits inputs below `10 ^ 64`. -/
def digitsLenAux : ℕ → ℕ → ℕ
  | 0, _ => 0
  | _ + 1, 0 => 0
  | f + 1, n => 1 + digitsLenAux f (n / 10)

/-- Number of base-10 digits of a natural number (0 for 0). -/
def digitsLen (n : ℕ) : ℕ := digitsLenAux 64 n

/-- Base-2 logarithm (floor) of a natural number, with fuel. -/
def log2Aux : ℕ → ℕ → ℕ
  | 0, _ => 0
  | f + 1, n => if 2 ≤ n then log2Aux f (n / 2) + 1 else 0

/-- Base-2 logarithm (floor) of a natural number, 0 for 0 and 1; the fuel
admits inputs below `2 ^ 128`, far above every number arising here. -/
def natLog2 (n : ℕ) : ℕ := log2Aux 128 n

/-- Floor of the base-2 logarithm of a positive rational. -/
def floorLog2 (a : ℚ) : ℤ :=
  let c : ℤ := (natLog2 a.num.toNat : ℤ) - (natLog2 a.den : ℤ)
  if pow2 c ≤ a then c else c - 1

/-- Floor of the base-10 logarithm of a positive rational. -/
def floorLog10 (a : ℚ) : ℤ :=
  let c : ℤ := ((digitsLen a.num.toNat : ℤ) - 1) - ((digitsLen a.den : ℤ) - 1)
  if pow10 c ≤ a then c else c - 1

/-! ### IEEE-754 binary64, exactly -/

/-- Round a rational to the nearest integer, ties to even. -/
def roundTiesEven (a : ℚ) : ℤ :=
  let f := qfloor a
  let r := qsub a (mkRat f 1)
  if r < mkRat 1 2 then f
  else if mkRat 1 2 < r then f + 1
  else if f % 2 = 0 then f else f + 1

/-- Round a rational to the nearest IEEE-754 binary64 value (round to
nearest, ties to even), returned as the exact rational that value
denotes.  Subnormal rounding clamps the scaling exponent at the minimum
exponent `-1074`; overflow to infinity lies outside the range exercised
by the script and is not modelled. -/
def roundB64 (q : ℚ) : ℚ :=
  if q = 0 then 0
  else
    let a := qabs q
    let e0 : ℤ := floorLog2 a - 52
    let e : ℤ := if e0 < -1074 then -1074 else e0
    let n : ℤ := roundTiesEven (qmul a (pow2 (-e)))
    if 0 < q then qmul (mkRat n 1) (pow2 e) else -(qmul (mkRat n 1) (pow2 e))

/-- The binary64 value denoted by a Python decimal literal whose exact
rational value is `q`. -/
def pyLit (q : ℚ) : ℚ := roundB64 q

/-- Binary64 addition: exact sum, correctly rounded. -/
def fadd (a b : ℚ) : ℚ := roundB64 (qadd a b)

/-- Binary64 subtraction: exact difference, correctly rounded. -/
def fsub (a b : ℚ) : ℚ := roundB64 (qsub a b)

/-- Binary64 multiplication: exact product, correctly rounded. -/
def fmul (a b : ℚ) : ℚ := roundB64 (qmul a b)

/-! ### Python `str` on a float -/

/-- Decimal digits of a natural number, least significant first, with fuel. -/
def natDigitsRev : ℕ → ℕ → List ℕ
  | 0, _ => []
  | _ + 1, 0 => []
  | f + 1, n => n % 10 :: natDigitsRev f (n / 10)

/-- Decimal string of a natural number. -/
def natStr (n : ℕ) : String :=
  if n = 0 then "0" else ⟨((natDigitsRev 64 n).reverse).map Nat.digitChar⟩

/-- Round a positive rational to `k` significant decimal digits (ties to
even): returns `(c, p)` with the rounded value equal to `c * 10 ^ p`. -/
def sigRound (d : ℚ) (k : ℕ) : ℤ × ℤ :=
  let p : ℤ := floorLog10 d - ((k : ℤ) - 1)
  (roundTiesEven (qmul d (pow10 (-p))), p)

/-- Shortest decimal that rounds back to the binary64 value `d > 0`:
tries the candidate rounded to `k` significant digits for each `k` in the
list, keeping the first that round-trips, with a 17-digit fallback. -/
def shortestReprAux (d : ℚ) : List ℕ → ℤ × ℤ
  | [] => sigRound d 17
  | k :: rest =>
    let c := sigRound d k
    if roundB64 (qmul (mkRat c.1 1) (pow10 c.2)) = d then c else shortestReprAux d rest

/-- Shortest round-tripping decimal representation of a binary64 value
`d > 0`, as `(c, p)` with value `c * 10 ^ p`. -/
def shortestRepr (d : ℚ) : ℤ × ℤ :=
  shortestReprAux d [1, 2, 3, 4, 5, 6, 7, 8, 9, 10, 11, 12, 13, 14, 15, 16]

/-- Format the shortest decimal of a positive binary64 value the way
Python formats a positive float: positional with a decimal point when the
leading digit's decimal exponent lies in `[-4, 16)`, scientific notation
with a sign and a two-digit-minimum exponent otherwise. -/
def pyPosStr (d : ℚ) : String :=
  let c := shortestRepr d
  let cn := c.1.toNat
  let k := digitsLen cn
  let e10 : ℤ := c.2 + (k : ℤ) - 1
  if -4 ≤ e10 ∧ e10 < 16 then
    if 0 ≤ c.2 then
      natStr cn ++ ⟨List.replicate c.2.toNat '0'⟩ ++ ".0"
    else
      let t := (-c.2).toNat
      let s := if k ≤ t then ⟨List.replicate (t + 1 - k) '0'⟩ ++ natStr cn else natStr cn
      ⟨s.data.take (s.data.length - t)⟩ ++ "." ++ ⟨s.data.drop (s.data.length - t)⟩
  else
    let ds := natStr cn
    let mant := if k = 1 then ds else ⟨ds.data.take 1⟩ ++ "." ++ ⟨ds.data.drop 1⟩
    let ea := natStr e10.natAbs
    mant ++ "e" ++ (if e10 < 0 then "-" else "+") ++ (if e10.natAbs < 10 then "0" ++ ea else ea)

/-- Python's `str` on a binary64 value. -/
def pyFloatStr (d : ℚ) : String :=
  if d = 0 then "0.0"
  else if d < 0 then "-" ++ pyPosStr (-d)
  else pyPosStr d

/-! ### Bridging lemmas: the `mkRat`-based operations are the standard ones -/

/-- The operation `qadd` is addition on `ℚ`. -/
theorem qadd_eq_add (a b : ℚ) : qadd a b = a + b := (Rat.add_def' a b).symm

/-- The operation `qsub` is subtraction on `ℚ`. -/
theorem qsub_eq_sub (a b : ℚ) : qsub a b = a - b := (Rat.sub_def' a b).symm

/-- The operation `qmul` is multiplication on `ℚ`. -/
theorem qmul_eq_mul (a b : ℚ) : qmul a b = a * b := by
  rw [qmul, Rat.mul_def, Rat.normalize_eq_mkRat]

/-- The operation `qabs` is the absolute value on `ℚ`. -/
theorem qabs_eq_abs (a : ℚ) : qabs a = |a| := by
  rw [qabs]
  split
  · rw [abs_of_neg]
    exact Rat.num_neg.mp (by assumption)
  · rw [abs_of_nonneg]
    exact Rat.num_nonneg.mp (by omega)

/-- The operation `qfloor` is the floor function on `ℚ`. -/
theorem qfloor_eq_floor (a : ℚ) : qfloor a = ⌊a⌋ := Rat.floor_def.symm

/-- The value `pow2 e` is the integer power `2 ^ e` in `ℚ`. -/
theorem pow2_eq_zpow (e : ℤ) : pow2 e = (2 : ℚ) ^ e := by
  rw [pow2]
  split
  · rw [Rat.mkRat_one]
    push_cast
    rw [← zpow_natCast, Int.toNat_of_nonneg (by assumption)]
  · rw [Rat.mkRat_eq_divInt, Rat.divInt_eq_div]
    push_cast
    rw [one_div, ← zpow_natCast, ← zpow_neg, Int.toNat_of_nonneg (by omega), neg_neg]

/-- The value `pow10 e` is the integer power `10 ^ e` in `ℚ`. -/
theorem pow10_eq_zpow (e : ℤ) : pow10 e = (10 : ℚ) ^ e := by
  rw [pow10]
  split
  · rw [Rat.mkRat_one]
    push_cast
    rw [← zpow_natCast, Int.toNat_of_nonneg (by assumption)]
  · rw [Rat.mkRat_eq_divInt, Rat.divInt_eq_div]
    push_cast
    rw [one_div, ← zpow_natCast, ← zpow_neg, Int.toNat_of_nonneg (by omega), neg_neg]

end Diagram

namespace Diagram

/-! ### The script as a trace of pyplot calls -/

/-- One pyplot call of `diagram.py`.  Numeric arguments carry the binary64
value (as an exact rational) that the Python expression in that argument
position evaluates to; string arguments are carried verbatim.  `annotate`
holds the label, the `(x, y)` position, and the optional `color` keyword;
`arrow` holds `x y dx dy` and the `ec`, `fc`, `lw`, `head_width`
keywords. -/
inductive Cmd where
  | xlim (lo hi : ℚ)
  | ylim (lo hi : ℚ)
  | fill (xs ys : List ℚ)
  | xlabel (s : String)
  | ylabel (s : String)
  | plot (xs ys : List ℚ) (fmt : String)
  | annotate (text : String) (pos : ℚ × ℚ) (color : Option String)
  | arrow (x y dx dy : ℚ) (ec fc : String) (lw : ℚ) (head_width : ℚ)
  | savefig (fname : String)
  deriving DecidableEq

/-- Binary64 value of the literal `1.1`. -/
def lit11 : ℚ := pyLit (mkRat 11 10)

/-- Binary64 value of the literal `0.75`. -/
def lit75 : ℚ := pyLit (mkRat 3 4)

/-- Binary64 value of the literal `0.65`. -/
def lit65 : ℚ := pyLit (mkRat 13 20)

/-- Binary64 value of the literal `0.85`. -/
def lit85 : ℚ := pyLit (mkRat 17 20)

/-- Binary64 value of the Python expression `4-2*0.75`. -/
def y75 : ℚ := fsub 4 (fmul 2 lit75)

/-- Binary64 value of the Python expression `4-2*0.65`. -/
def y65 : ℚ := fsub 4 (fmul 2 lit65)

/-- Binary64 value of the Python expression `4-2*0.85`. -/
def y85 : ℚ := fsub 4 (fmul 2 lit85)

/-- Embedding of `def obj(x, y): return str(1.5*x+y)` — evaluates `1.5*x+y` in binary64
and converts the result to its Python string. -/
def obj (x y : ℚ) : String := pyFloatStr (fadd (fmul (pyLit (mkRat 3 2)) x) y)

/-- The module body of `diagram.py`: its pyplot calls in source order,
with every argument already evaluated (Python evaluates arguments before
each call). -/
def script : List Cmd :=
  [ .xlim (pyLit (mkRat (-1) 2)) 5,
    .ylim (pyLit (mkRat (-1) 2)) 5,
    .fill [0, 2, 0] [0, 0, 4],
    .xlabel "x",
    .ylabel "y",
    .plot [1] [1] "ko",
    .annotate ("(x0, y0), objective=" ++ obj 1 1) (pyLit (mkRat 19 20), pyLit (mkRat 17 20)) none,
    .plot [lit11] [1] "ro",
    .annotate ("(x0+d, y0), objective=" ++ obj lit11 1) (pyLit (mkRat 19 20), pyLit (mkRat 11 10)) (some "r"),
    .plot [lit75] [y75] "ko",
    .annotate ("(x0, y0), objective=" ++ obj lit75 y75) (pyLit (mkRat 4 5), fsub y75 (pyLit (mkRat 1 20))) none,
    .arrow lit75 y75 (pyLit (mkRat (-1) 20)) (pyLit (mkRat 1 10)) "g" "g" 4 (pyLit (mkRat 1 25)),
    .plot [lit65] [y65] "ro",
    .annotate ("(x0, y0) + d, objective=" ++ obj lit65 y65) (pyLit (mkRat 7 10), fsub y65 (pyLit (mkRat 1 20))) (some "r"),
    .plot [lit85] [y85] "yo",
    .annotate ("(x0, y0) - d, objective=" ++ obj lit85 y85) (pyLit (mkRat 9 10), fsub y85 (pyLit (mkRat 1 20))) (some "y"),
    .savefig "polygon_diagram.png" ]

/-- Color named by the first character of a matplotlib format string,
modelled from matplotlib's single-letter color codes. -/
def fmtColorName (fmt : String) : String :=
  match fmt.data with
  | 'k' :: _ => "black"
  | 'r' :: _ => "red"
  | 'y' :: _ => "yellow"
  | 'g' :: _ => "green"
  | 'b' :: _ => "blue"
  | _ => "unknown"

/-- Whether a command is a `plot` call. -/
def Cmd.isPlot : Cmd → Bool
  | .plot _ _ _ => true
  | _ => false

/-- Whether a command is an `annotate` call. -/
def Cmd.isAnnotate : Cmd → Bool
  | .annotate _ _ _ => true
  | _ => false

/-- Whether a command is an `arrow` call. -/
def Cmd.isArrow : Cmd → Bool
  | .arrow _ _ _ _ _ _ _ _ => true
  | _ => false

/-- The file name a command writes to, if any: of all the pyplot calls in
the script only `savefig` touches the filesystem. -/
def Cmd.writeTarget : Cmd → Option String
  | .savefig f => some f
  | _ => none

/-- Interpreter state: the implicit current figure (drawing commands
accumulated so far) and the filesystem, a map from file name to the
figure last saved under that name. -/
structure PState where
  figure : List Cmd
  fs : String → Option (List Cmd)

/-- Effect of one pyplot call: `savefig` writes the current figure to its
file name, creating the file or overwriting it without error; every other
call appends to the current figure and leaves the filesystem alone. -/
def step (s : PState) (c : Cmd) : PState :=
  match c with
  | .savefig name => ⟨s.figure, fun n => if n = name then some s.figure else s.fs n⟩
  | c => ⟨s.figure ++ [c], s.fs⟩

/-- Run a command list from an empty figure over a given filesystem. -/
def run (cs : List Cmd) (fs0 : String → Option (List Cmd)) : PState :=
  cs.foldl step ⟨[], fs0⟩

/-- The script as invoked by the interpreter: its module body reads
neither `sys.argv` nor the environment, so the command trace it issues is
the same for every invocation. -/
def scriptOf (_argv : List String) (_env : String → Option String) : List Cmd :=
  script

end Diagram


namespace Diagram

set_option maxRecDepth 4000

/-! ### Claims -/

/-- C3: the figure contains exactly five point markers, in source order: a
black circle marker at `(1, 1)`, a red one at `(1.1, 1)`, a black one at
`(0.75, 2.5)`, a red one at `(0.65, 2.7)` and a yellow one at
`(0.85, 2.3)`, where each coordinate is the binary64 value of the listed
decimal (the last two y-coordinates, computed as `4-2*x`, equal the
binary64 values of `2.7` and `2.3` exactly). -/
theorem C3_five_markers :
    script.filter Cmd.isPlot =
      [ .plot [1] [1] "ko",
        .plot [lit11] [1] "ro",
        .plot [lit75] [y75] "ko",
        .plot [lit65] [y65] "ro",
        .plot [lit85] [y85] "yo" ]
    ∧ lit75 = mkRat 3 4 ∧ y75 = mkRat 5 2
    ∧ y65 = pyLit (mkRat 27 10) ∧ y85 = pyLit (mkRat 23 10)
    ∧ fmtColorName "ko" = "black" ∧ fmtColorName "ro" = "red"
    ∧ fmtColorName "yo" = "yellow" := by
  decide

/-- C4: the three boundary points plotted at `x = 0.75`, `x = 0.65` and
`x = 0.85` have y-coordinates equal to `4 - 2x` and to the listed decimals
`2.5`, `2.7`, `2.3` within floating-point tolerance `2 ^ (-50)`. -/
theorem C4_boundary_points_on_line :
    |y75 - (4 - 2 * lit75)| ≤ mkRat 1 (2 ^ 50)
    ∧ |y65 - (4 - 2 * lit65)| ≤ mkRat 1 (2 ^ 50)
    ∧ |y85 - (4 - 2 * lit85)| ≤ mkRat 1 (2 ^ 50)
    ∧ |y75 - mkRat 5 2| ≤ mkRat 1 (2 ^ 50)
    ∧ |y65 - mkRat 27 10| ≤ mkRat 1 (2 ^ 50)
    ∧ |y85 - mkRat 23 10| ≤ mkRat 1 (2 ^ 50) := by
  simp only [← qabs_eq_abs, ← qsub_eq_sub, ← qmul_eq_mul]
  decide

/-- C5: exactly one arrow is drawn; it originates at `(0.75, 2.5)` (the
binary64 values `3/4` and `5/2`), has displacement the binary64 values of
`-0.05` and `0.1`, and is drawn with green edge and face color, line
width `4`, and head width the binary64 value of `0.04`. -/
theorem C5_single_arrow :
    script.filter Cmd.isArrow =
      [ .arrow lit75 y75 (pyLit (mkRat (-1) 20)) (pyLit (mkRat 1 10)) "g" "g" 4
          (pyLit (mkRat 1 25)) ]
    ∧ lit75 = mkRat 3 4 ∧ y75 = mkRat 5 2
    ∧ fmtColorName "g" = "green" := by
  decide

/-- C8: the axes are set to x-range `[-0.5, 5]` and y-range `[-0.5, 5]`
(and `-0.5` is exactly representable, so `pyLit` leaves it unchanged),
the axis labels are `x` and `y`, and the filled polygon's vertex list,
obtained by pairing the `fill` call's two coordinate lists, is the
triangle `(0,0), (2,0), (0,4)`. -/
theorem C8_axes_and_triangle :
    script.get? 0 = some (.xlim (mkRat (-1) 2) 5)
    ∧ script.get? 1 = some (.ylim (mkRat (-1) 2) 5)
    ∧ script.get? 3 = some (.xlabel "x")
    ∧ script.get? 4 = some (.ylabel "y")
    ∧ script.get? 2 = some (.fill [0, 2, 0] [0, 0, 4])
    ∧ List.zip ([0, 2, 0] : List ℚ) ([0, 0, 4] : List ℚ) = [(0, 0), (2, 0), (0, 4)] := by
  decide

/-- C1 counterexample: the annotation attached to the point `(1.1, 1)`
reads `(x0+d, y0), objective=2.6500000000000004`; its objective value is
not the claimed `2.65`, because `1.5*1.1+1` in binary64 rounds to a value
strictly above `2.65`. -/
theorem C1_counterexample :
    script.get? 8 = some (.annotate "(x0+d, y0), objective=2.6500000000000004"
      (pyLit (mkRat 19 20), pyLit (mkRat 11 10)) (some "r"))
    ∧ obj lit11 1 = "2.6500000000000004"
    ∧ obj lit11 1 ≠ "2.65"
    ∧ fadd (fmul (pyLit (mkRat 3 2)) lit11) 1 ≠ mkRat 53 20
    ∧ fadd (fmul (pyLit (mkRat 3 2)) lit11) 1 ≠ pyLit (mkRat 53 20) := by
  decide

/-- C1 amended: each annotated objective value is Python's string of the
binary64 evaluation of `1.5*x + y`; this equals `1.5*x + y` exactly for
the points `(1, 1)` and `(0.75, 2.5)` (values `2.5` and `3.625`), while
for the other three points rounding makes the annotated values
`2.6500000000000004`, `3.6750000000000003` and `3.5749999999999997`. -/
theorem C1_amended_objective_values :
    obj 1 1 = "2.5"
    ∧ obj lit11 1 = "2.6500000000000004"
    ∧ obj lit75 y75 = "3.625"
    ∧ obj lit65 y65 = "3.6750000000000003"
    ∧ obj lit85 y85 = "3.5749999999999997"
    ∧ fadd (fmul (pyLit (mkRat 3 2)) 1) 1 = mkRat 5 2
    ∧ fadd (fmul (pyLit (mkRat 3 2)) lit75) y75 = mkRat 29 8
    ∧ fadd (fmul (pyLit (mkRat 3 2)) lit11) 1 = mkRat 1491817376566477 562949953421312
    ∧ fadd (fmul (pyLit (mkRat 3 2)) lit65) y65 = mkRat 8275364315293287 2251799813685248
    ∧ fadd (fmul (pyLit (mkRat 3 2)) lit85) y85 = mkRat 8050184333924761 2251799813685248
    ∧ fadd (fmul (pyLit (mkRat 3 2)) lit11) 1 ≠ qadd (qmul (mkRat 3 2) lit11) 1
    ∧ fadd (fmul (pyLit (mkRat 3 2)) lit65) y65 ≠ qadd (qmul (mkRat 3 2) lit65) y65
    ∧ fadd (fmul (pyLit (mkRat 3 2)) lit85) y85 ≠ qadd (qmul (mkRat 3 2) lit85) y85 := by
  decide

/-- C2 counterexample: the annotation attached to the plotted point
`(1, 1)` is the text `(x0, y0), objective=2.5`, which does not contain
the character `1` at all, hence does not show the point's coordinates
(whose Python texts are `1` as an int and `1.0` as a float). -/
theorem C2_counterexample :
    script.get? 5 = some (.plot [1] [1] "ko")
    ∧ script.get? 6 = some (.annotate "(x0, y0), objective=2.5"
        (pyLit (mkRat 19 20), pyLit (mkRat 17 20)) none)
    ∧ ("(x0, y0), objective=2.5".data.contains '1') = false
    ∧ pyFloatStr 1 = "1.0" := by
  decide

/-- C2 amended: every one of the five plotted points is followed by a text
annotation whose label is a symbolic coordinate tag (such as `(x0, y0)` or
`(x0+d, y0)`, not the numeric coordinates) followed by `, objective=` and
the objective value computed at that point's plotted coordinates,
converted to text with no explicit formatting. -/
theorem C2_amended_annotations :
    script.get? 5 = some (.plot [1] [1] "ko")
    ∧ script.get? 6 = some (.annotate ("(x0, y0)" ++ ", objective=" ++ obj 1 1)
        (pyLit (mkRat 19 20), pyLit (mkRat 17 20)) none)
    ∧ script.get? 7 = some (.plot [lit11] [1] "ro")
    ∧ script.get? 8 = some (.annotate ("(x0+d, y0)" ++ ", objective=" ++ obj lit11 1)
        (pyLit (mkRat 19 20), pyLit (mkRat 11 10)) (some "r"))
    ∧ script.get? 9 = some (.plot [lit75] [y75] "ko")
    ∧ script.get? 10 = some (.annotate ("(x0, y0)" ++ ", objective=" ++ obj lit75 y75)
        (pyLit (mkRat 4 5), fsub y75 (pyLit (mkRat 1 20))) none)
    ∧ script.get? 12 = some (.plot [lit65] [y65] "ro")
    ∧ script.get? 13 = some (.annotate ("(x0, y0) + d" ++ ", objective=" ++ obj lit65 y65)
        (pyLit (mkRat 7 10), fsub y65 (pyLit (mkRat 1 20))) (some "r"))
    ∧ script.get? 14 = some (.plot [lit85] [y85] "yo")
    ∧ script.get? 15 = some (.annotate ("(x0, y0) - d" ++ ", objective=" ++ obj lit85 y85)
        (pyLit (mkRat 9 10), fsub y85 (pyLit (mkRat 1 20))) (some "y")) := by
  decide

/-- C9 counterexample: the point plotted at `x = 0.65` violates
`2x + y ≤ 4`: in binary64, `x` is slightly above `13/20` and `y = 4-2*x`
rounds up, so `2x + y` exceeds `4` by exactly `2 ^ (-52)`; for the same
reason neither the `0.65` point nor the `0.85` point lies exactly on the
line `2x + y = 4`. -/
theorem C9_counterexample :
    script.get? 12 = some (.plot [lit65] [y65] "ro")
    ∧ 2 * lit65 + y65 = 4 + mkRat 1 (2 ^ 52)
    ∧ ¬ (2 * lit65 + y65 ≤ 4)
    ∧ y65 ≠ 4 - 2 * lit65
    ∧ y85 ≠ 4 - 2 * lit85 := by
  constructor
  · decide
  · simp only [← qadd_eq_add, ← qmul_eq_mul, ← qsub_eq_sub]
    decide

/-- C9 amended: every plotted point `(x, y)` satisfies `0 ≤ x`, `0 ≤ y`
and `2x + y ≤ 4 + 2 ^ (-52)`.  The two interior points satisfy
`2x + y ≤ 4` strictly; of the three points whose `y` is computed as
`4 - 2*x`, the one at `x = 0.75` lies exactly on the edge `2x + y = 4`
(the literal `0.75` is exactly representable), while at `x = 0.65` and
`x = 0.85` rounding displaces `2x + y` from `4` by exactly `2 ^ (-52)`,
outward and inward respectively. -/
theorem C9_points_near_feasible_region :
    (0 ≤ (1 : ℚ) ∧ 0 ≤ (1 : ℚ) ∧ 2 * 1 + 1 < (4 : ℚ))
    ∧ (0 ≤ lit11 ∧ 0 ≤ (1 : ℚ) ∧ 2 * lit11 + 1 < 4)
    ∧ (0 ≤ lit75 ∧ 0 ≤ y75 ∧ 2 * lit75 + y75 = 4)
    ∧ (0 ≤ lit65 ∧ 0 ≤ y65 ∧ 2 * lit65 + y65 = 4 + mkRat 1 (2 ^ 52))
    ∧ (0 ≤ lit85 ∧ 0 ≤ y85 ∧ 2 * lit85 + y85 = 4 - mkRat 1 (2 ^ 52)) := by
  simp only [← qadd_eq_add, ← qmul_eq_mul, ← qsub_eq_sub]
  decide

/-- Running the script over any filesystem changes exactly the file
`polygon_diagram.png`, which afterwards holds the accumulated figure (all
drawing commands, i.e. the script minus its final `savefig`). -/
theorem run_script_fs (fs0 : String → Option (List Cmd)) (n : String) :
    (run script fs0).fs n =
      if n = "polygon_diagram.png" then some script.dropLast else fs0 n := rfl

/-- C6: `savefig` is the script's only filesystem effect; it targets the
bare name `polygon_diagram.png` (no path separator, hence the working
directory), and running the script over any starting filesystem — whether
or not a file of that name already exists — leaves every other file
untouched and ends with `polygon_diagram.png` holding the composed
figure, overwriting without error. -/
theorem C6_single_overwriting_write :
    script.filterMap Cmd.writeTarget = ["polygon_diagram.png"]
    ∧ ("polygon_diagram.png".data.contains '/') = false
    ∧ ∀ (fs0 : String → Option (List Cmd)) (n : String),
        (run script fs0).fs n =
          if n = "polygon_diagram.png" then some script.dropLast else fs0 n := by
  exact ⟨by decide, by decide, run_script_fs⟩

/-- C7: the script's behavior is deterministic and independent of
command-line arguments and environment state: every invocation issues the
same command trace, and running the script a second time over the
filesystem left by a first run reproduces exactly the same contents of
`polygon_diagram.png`. -/
theorem C7_deterministic_output :
    ∀ (a1 a2 : List String) (e1 e2 : String → Option String)
      (fs0 : String → Option (List Cmd)),
      scriptOf a1 e1 = scriptOf a2 e2
      ∧ (run (scriptOf a1 e1) fs0).fs "polygon_diagram.png" = some script.dropLast
      ∧ (run (scriptOf a2 e2) (run (scriptOf a1 e1) fs0).fs).fs "polygon_diagram.png"
          = (run (scriptOf a1 e1) fs0).fs "polygon_diagram.png" := by
  intro a1 a2 e1 e2 fs0
  refine ⟨rfl, ?_, ?_⟩
  · simp only [scriptOf, run_script_fs]
    simp
  · simp only [scriptOf, run_script_fs]
    simp

/-- C10: `obj` returns a string, not a number — for all inputs it is the
default decimal string of the binary64 value of `1.5*x + y` — and each of
the five annotation labels is a fixed literal text followed by the string
`obj` returned. -/
theorem C10_obj_returns_string :
    (∀ x y : ℚ, obj x y = pyFloatStr (fadd (fmul (pyLit (mkRat 3 2)) x) y))
    ∧ script.get? 6 = some (.annotate ("(x0, y0), objective=" ++ obj 1 1)
        (pyLit (mkRat 19 20), pyLit (mkRat 17 20)) none)
    ∧ script.get? 8 = some (.annotate ("(x0+d, y0), objective=" ++ obj lit11 1)
        (pyLit (mkRat 19 20), pyLit (mkRat 11 10)) (some "r"))
    ∧ script.get? 10 = some (.annotate ("(x0, y0), objective=" ++ obj lit75 y75)
        (pyLit (mkRat 4 5), fsub y75 (pyLit (mkRat 1 20))) none)
    ∧ script.get? 13 = some (.annotate ("(x0, y0) + d, objective=" ++ obj lit65 y65)
        (pyLit (mkRat 7 10), fsub y65 (pyLit (mkRat 1 20))) (some "r"))
    ∧ script.get? 15 = some (.annotate ("(x0, y0) - d, objective=" ++ obj lit85 y85)
        (pyLit (mkRat 9 10), fsub y85 (pyLit (mkRat 1 20))) (some "y")) := by
  exact ⟨fun x y => rfl, rfl, rfl, rfl, rfl, rfl⟩

end Diagram
